import Mathlib

/-!
Verification of the Gold vs S&P 500 analysis pipeline.

This file gives a shallow embedding, in Lean 4, of the computational core of
the repository (validator, fetcher retry logic, cache manager, metric
functions, portfolio sampler) and proves or refutes the specification claims
about it.  Prices and statistics are modelled over the exact rationals
(with reals only where a square root occurs); pandas missing values (NaN)
are modelled with `Option`; dates and timestamps are integers (days,
respectively seconds).  Conventions that stand in for IEEE-float edge cases
(infinity from a zero denominator, NaN comparisons being false) are noted
at the definitions that use them.
-/

set_option maxHeartbeats 1000000

namespace GoldSP

/-- One row of the merged dataset handled by `DataProcessor`:
a date (days since an epoch) and the two price columns, where `none`
models a pandas NaN entry. -/
structure Row where
  date : Int
  gold : Option ℚ
  sp500 : Option ℚ
deriving DecidableEq

/-- The merged two-asset table (`df` in `data_processor.py`). -/
abbrev Dataset := List Row

/-- The validation-rule parameters read via `self.validation_rules.get`
in `DataProcessor.validate_data` (defaults 10.0 and 2 in the source). -/
structure Rules where
  max_daily_change_pct : ℚ
  max_gap_business_days : Int
deriving DecidableEq

/-- The gold price column of a dataset. -/
def goldCol (df : Dataset) : List (Option ℚ) := df.map (·.gold)

/-- The sp500 price column of a dataset. -/
def sp500Col (df : Dataset) : List (Option ℚ) := df.map (·.sp500)

/-- The date column of a dataset. -/
def dateCol (df : Dataset) : List Int := df.map (·.date)

/-- Pandas forward fill (`fillna(method=ffill)` / the pad step of
`pct_change`): each NaN is replaced by the last value seen, leading NaNs
(per the accumulator) stay as given. -/
def ffill (acc : Option ℚ) : List (Option ℚ) → List (Option ℚ)
  | [] => []
  | some v :: xs => some v :: ffill (some v) xs
  | none :: xs => acc :: ffill acc xs

/-- Pandas backward fill: forward fill on the reversed list. -/
def bfill (l : List (Option ℚ)) : List (Option ℚ) :=
  (ffill none l.reverse).reverse

/-- Whether the absolute one-day percentage change between consecutive
(pad-filled) values exceeds threshold `t`, matching
`series.pct_change().abs() * 100 > t` elementwise.  A NaN on either side
compares as false; a zero previous price gives an IEEE infinity when the
current price differs (which exceeds any finite threshold) and a NaN when
both are zero. -/
def absChangeExceeds (t : ℚ) : Option ℚ → Option ℚ → Bool
  | some p, some c =>
      if p = 0 then decide (c ≠ 0)
      else decide (|(c - p) / p| * 100 > t)
  | _, _ => false

/-- Number of consecutive positions whose absolute percentage change
exceeds `t` (the `.sum()` of the boolean series in check 3). -/
def countExceed (t : ℚ) : List (Option ℚ) → Nat
  | [] => 0
  | [_] => 0
  | a :: b :: rest =>
      (if absChangeExceeds t a b then 1 else 0) + countExceed t (b :: rest)

/-- Number of consecutive date differences strictly greater than `maxGap`
(`(df.date.diff().dt.days > max_gap).sum()` in check 4; the leading NaN
difference is never counted). -/
def gapCount (maxGap : Int) : List Int → Nat
  | [] => 0
  | [_] => 0
  | a :: b :: rest =>
      (if b - a > maxGap then 1 else 0) + gapCount maxGap (b :: rest)

/-- Helper for `dupCount`: counts elements that already occurred in `seen`. -/
def dupCountAux (seen : List Int) : List Int → Nat
  | [] => 0
  | x :: xs => (if x ∈ seen then 1 else 0) + dupCountAux (x :: seen) xs

/-- Number of duplicated dates (`df.date.duplicated().sum()`: occurrences
after the first of each value). -/
def dupCount (l : List Int) : Nat := dupCountAux [] l

/-- Count of non-null entries of a column (`.notna().sum()`). -/
def countSome (l : List (Option ℚ)) : Nat := (l.filterMap id).length

/-- Span in days between the maximum and minimum date of the dataset
(0 for an empty dataset, whose pandas behaviour is out of scope: the
validator is only ever called on fetched, non-empty data). -/
def dateSpan (df : Dataset) : Int :=
  match dateCol df with
  | [] => 0
  | d :: ds => ds.foldl max d - ds.foldl min d

/-- Whether an optional price is strictly negative (`series < 0`
elementwise; NaN compares false). -/
def optNeg : Option ℚ → Bool
  | some x => decide (x < 0)
  | none => false

/-- Status of one validation check. -/
inductive CStatus where
  | pass
  | fail
  | warn
deriving DecidableEq

/-- Outcome of one validation check: its display name, its status, and the
detail string recorded in `results[details]` when one is set. -/
structure CheckRes where
  name : String
  status : CStatus
  detail : Option String
deriving DecidableEq

/-- Check 1 of `validate_data`: fails iff some price in either column is
strictly negative (`(df.gold < 0).any() or (df.sp500 < 0).any()`); no
detail is recorded. -/
def check1 (df : Dataset) : CheckRes :=
  if (goldCol df).any optNeg || (sp500Col df).any optNeg then
    ⟨"No negative prices", .fail, none⟩
  else
    ⟨"No negative prices", .pass, none⟩

/-- Check 2: fails iff some date lies strictly after today. -/
def check2 (today : Int) (df : Dataset) : CheckRes :=
  let cnt := (df.filter (fun r => decide (r.date > today))).length
  if cnt > 0 then
    ⟨"No future dates", .fail, some ("Found " ++ toString cnt ++ " future dates")⟩
  else
    ⟨"No future dates", .pass, none⟩

/-- Check 3: warns iff either column has a one-day absolute change above
`max_daily_change_pct` percent (`pct_change` pad-fills missing values
first). -/
def check3 (rules : Rules) (df : Dataset) : CheckRes :=
  let t := rules.max_daily_change_pct
  let g := countExceed t (ffill none (goldCol df))
  let s := countExceed t (ffill none (sp500Col df))
  if g > 0 || s > 0 then
    ⟨"Reasonable daily price changes (max 10%)", .warn,
      some ("Gold: " ++ toString g ++ ", S&P500: " ++ toString s ++
        " changes > " ++ toString t ++ "%")⟩
  else
    ⟨"Reasonable daily price changes (max 10%)", .pass, none⟩

/-- Check 4: warns iff some consecutive date gap exceeds
`max_gap_business_days` days. -/
def check4 (rules : Rules) (df : Dataset) : CheckRes :=
  let gaps := gapCount rules.max_gap_business_days (dateCol df)
  if gaps > 0 then
    ⟨"Complete date range (no gaps > 2 business days)", .warn,
      some ("Found " ++ toString gaps ++ " gaps > " ++
        toString rules.max_gap_business_days ++
        " days (expected on weekends/holidays)")⟩
  else
    ⟨"Complete date range (no gaps > 2 business days)", .pass, none⟩

/-- Check 5: fails iff the two columns have different non-null counts. -/
def check5 (df : Dataset) : CheckRes :=
  let g := countSome (goldCol df)
  let s := countSome (sp500Col df)
  if g ≠ s then
    ⟨"Same number of records for both assets", .fail,
      some ("Gold: " ++ toString g ++ ", S&P500: " ++ toString s)⟩
  else
    ⟨"Same number of records for both assets", .pass, none⟩

/-- Check 6: fails iff some date is duplicated. -/
def check6 (df : Dataset) : CheckRes :=
  let d := dupCount (dateCol df)
  if d > 0 then
    ⟨"No duplicate dates", .fail,
      some ("Found " ++ toString d ++ " duplicate dates")⟩
  else
    ⟨"No duplicate dates", .pass, none⟩

/-- Check 7: fails unless every entry of both columns is numeric
(`pd.to_numeric(col, errors=coerce).notna().sum() == len(df)`; in this
model a non-numeric or NaN entry is `none`). -/
def check7 (df : Dataset) : CheckRes :=
  let gOk := countSome (goldCol df) = df.length
  let sOk := countSome (sp500Col df) = df.length
  if ¬ (gOk ∧ sOk) then
    ⟨"Prices are numeric", .fail, none⟩
  else
    ⟨"Prices are numeric", .pass, none⟩

/-- Check 8: `pd.to_datetime` on the (already datetime-typed) date column
cannot raise, so this check always passes in the model. -/
def check8 (_df : Dataset) : CheckRes :=
  ⟨"Date format is consistent", .pass, none⟩

/-- Check 9: warns iff either column contains a null. -/
def check9 (df : Dataset) : CheckRes :=
  let g := df.length - countSome (goldCol df)
  let s := df.length - countSome (sp500Col df)
  if g > 0 ∨ s > 0 then
    ⟨"No NULL values (or properly handled)", .warn,
      some ("Gold NULLs: " ++ toString g ++ ", S&P500 NULLs: " ++
        toString s ++ " (forward-filled)")⟩
  else
    ⟨"No NULL values (or properly handled)", .pass, none⟩

/-- Check 10: warns iff the observed row count falls below 95 percent of
the expected trading-day count `int(252 * span_days / 365.25)` for the
covered span (the ratio is 0 when the expectation is not positive). -/
def check10 (df : Dataset) : CheckRes :=
  let years : ℚ := (dateSpan df : ℚ) / (36525 / 100)
  let expectedTotal : Int := ⌊(252 : ℚ) * years⌋
  let ratioVal : ℚ :=
    if expectedTotal > 0 then (df.length : ℚ) / (expectedTotal : ℚ) else 0
  if ratioVal < 95 / 100 then
    ⟨"Data matches expected trading days", .warn,
      some ("Expected ~" ++ toString expectedTotal ++ ", got " ++
        toString df.length ++ " (ratio: " ++ toString ratioVal ++ ")")⟩
  else
    ⟨"Data matches expected trading days", .pass, none⟩

/-- The ten checks of `DataProcessor.validate_data`, in source order. -/
def checks (rules : Rules) (today : Int) (df : Dataset) : List CheckRes :=
  [check1 df, check2 today df, check3 rules df, check4 rules df,
   check5 df, check6 df, check7 df, check8 df, check9 df, check10 df]

/-- The summary block written into `results[summary]`. -/
structure VSummary where
  total_checks : Nat
  passed : Nat
  failed : Nat
  warnings : Nat
  quality_score : ℚ
deriving DecidableEq

/-- The `results` dictionary returned by `validate_data`: the three
check-name lists, the detail map (in insertion order), and the summary. -/
structure VResults where
  passed : List String
  failed : List String
  warnings : List String
  details : List (String × String)
  summary : VSummary
deriving DecidableEq

/-- Round half to even, as Python's `round` does on exact ties (the
validator only ever rounds integer-valued scores, on which every rounding
convention agrees). -/
def roundHalfEven (x : ℚ) : Int :=
  let f := ⌊x⌋
  let r := x - (f : ℚ)
  if r < 1 / 2 then f
  else if r > 1 / 2 then f + 1
  else if 2 ∣ f then f else f + 1

/-- Python `round(x, 1)`. -/
def pyRound1 (x : ℚ) : ℚ := (roundHalfEven (10 * x) : ℚ) / 10

/-- Shallow embedding of `DataProcessor.validate_data`: runs the ten
checks, assembles the passed/failed/warning name lists and the detail map
in check order, computes the quality score
`min(100, max(0, 100 - 10*failed - 2*warnings))`, and returns
`(is_valid, results, quality_score)` with `is_valid` true iff no check
failed. -/
def validate_data (rules : Rules) (today : Int) (df : Dataset) :
    Bool × VResults × ℚ :=
  let cs := checks rules today df
  let p := (cs.filter (fun c => c.status = CStatus.pass)).map (·.name)
  let f := (cs.filter (fun c => c.status = CStatus.fail)).map (·.name)
  let w := (cs.filter (fun c => c.status = CStatus.warn)).map (·.name)
  let details := cs.filterMap (fun c => c.detail.map (fun d => (c.name, d)))
  let failure_penalty : ℚ := (f.length : ℚ) * 10
  let warning_penalty : ℚ := (w.length : ℚ) * 2
  let quality_score : ℚ := min 100 (max 0 (100 - failure_penalty - warning_penalty))
  let is_valid := f.isEmpty
  let summary : VSummary :=
    ⟨p.length + f.length, p.length, f.length, w.length, pyRound1 quality_score⟩
  (is_valid, ⟨p, f, w, details, summary⟩, quality_score)

/-- Whether an optional price is at most zero (used to state the spec's
"negative or zero prices" predicate; NaN counts as neither). -/
def optNonPos : Option ℚ → Bool
  | some x => decide (x ≤ 0)
  | none => false

/-- The `DataProcessor` object state: the constructor stores the rule
dictionary, an initially empty check list and no data. -/
structure ProcState where
  validation_rules : Rules
  quality_checks : List String
  data : Option Dataset
deriving DecidableEq

/-- The method call `processor.validate_data(df)` as a state transformer:
the body reads `self.validation_rules` and assigns no attribute, so the
object state passes through unchanged. -/
def validateRun (s : ProcState) (today : Int) (df : Dataset) :
    (Bool × VResults × ℚ) × ProcState :=
  (validate_data s.validation_rules today df, s)

/-- The validation-rule values used by the app configuration
(`max_daily_change_pct = 10`, `max_gap_business_days = 2`, the source
defaults). -/
def rules0 : Rules := ⟨10, 2⟩

/-- A small clean dataset on which all ten checks pass. -/
def df0 : Dataset :=
  [⟨0, some 100, some 50⟩, ⟨1, some 100, some 50⟩, ⟨2, some 100, some 50⟩]

/-- A dataset whose second gold price is exactly zero (and nothing is
negative). -/
def df5 : Dataset := [⟨0, some 100, some 50⟩, ⟨1, some 0, some 50⟩]

section ValidatorLemmas

variable (rules : Rules) (today : Int) (df : Dataset)

lemma check1_name : (check1 df).name = "No negative prices" := by
  simp only [check1]; split <;> rfl

lemma check2_name : (check2 today df).name = "No future dates" := by
  simp only [check2]; split <;> rfl

lemma check3_name :
    (check3 rules df).name = "Reasonable daily price changes (max 10%)" := by
  simp only [check3]; split <;> rfl

lemma check4_name :
    (check4 rules df).name = "Complete date range (no gaps > 2 business days)" := by
  simp only [check4]; split <;> rfl

lemma check5_name : (check5 df).name = "Same number of records for both assets" := by
  simp only [check5]; split <;> rfl

lemma check6_name : (check6 df).name = "No duplicate dates" := by
  simp only [check6]; split <;> rfl

lemma check7_name : (check7 df).name = "Prices are numeric" := by
  simp only [check7]; split <;> rfl

lemma check8_name : (check8 df).name = "Date format is consistent" := rfl

lemma check9_name : (check9 df).name = "No NULL values (or properly handled)" := by
  simp only [check9]; split <;> rfl

lemma check10_name : (check10 df).name = "Data matches expected trading days" := by
  simp only [check10]
  split <;> first | rfl | (split <;> rfl)

lemma check1_status_fail :
    (check1 df).status = CStatus.fail ↔
      ((goldCol df).any optNeg || (sp500Col df).any optNeg) = true := by
  simp only [check1]; split <;> simp_all

lemma check1_status_pass :
    (check1 df).status = CStatus.pass ↔
      ¬ ((goldCol df).any optNeg || (sp500Col df).any optNeg) = true := by
  simp only [check1]; split <;> simp_all

lemma optNeg_iff (o : Option ℚ) :
    optNeg o = true ↔ ∃ x, o = some x ∧ x < 0 := by
  cases o <;> simp [optNeg]

lemma mem_failed_iff (n : String) :
    n ∈ (validate_data rules today df).2.1.failed ↔
      ∃ c ∈ checks rules today df, c.status = CStatus.fail ∧ c.name = n := by
  simp only [validate_data, List.mem_map, List.mem_filter, decide_eq_true_eq]
  constructor
  · rintro ⟨c, ⟨hc, hs⟩, hn⟩; exact ⟨c, hc, hs, hn⟩
  · rintro ⟨c, hc, hs, hn⟩; exact ⟨c, ⟨hc, hs⟩, hn⟩

lemma mem_passed_iff (n : String) :
    n ∈ (validate_data rules today df).2.1.passed ↔
      ∃ c ∈ checks rules today df, c.status = CStatus.pass ∧ c.name = n := by
  simp only [validate_data, List.mem_map, List.mem_filter, decide_eq_true_eq]
  constructor
  · rintro ⟨c, ⟨hc, hs⟩, hn⟩; exact ⟨c, hc, hs, hn⟩
  · rintro ⟨c, hc, hs, hn⟩; exact ⟨c, ⟨hc, hs⟩, hn⟩

lemma mem_failed_check1 :
    "No negative prices" ∈ (validate_data rules today df).2.1.failed ↔
      (check1 df).status = CStatus.fail := by
  rw [mem_failed_iff]
  simp only [checks, List.mem_cons, List.not_mem_nil, or_false]
  constructor
  · rintro ⟨c, hc, hs, hn⟩
    rcases hc with rfl | rfl | rfl | rfl | rfl | rfl | rfl | rfl | rfl | rfl
    · exact hs
    · rw [check2_name] at hn; exact absurd hn (by simp)
    · rw [check3_name] at hn; exact absurd hn (by simp)
    · rw [check4_name] at hn; exact absurd hn (by simp)
    · rw [check5_name] at hn; exact absurd hn (by simp)
    · rw [check6_name] at hn; exact absurd hn (by simp)
    · rw [check7_name] at hn; exact absurd hn (by simp)
    · rw [check8_name] at hn; exact absurd hn (by simp)
    · rw [check9_name] at hn; exact absurd hn (by simp)
    · rw [check10_name] at hn; exact absurd hn (by simp)
  · intro hs; exact ⟨check1 df, by simp, hs, check1_name df⟩

lemma mem_passed_check1 :
    "No negative prices" ∈ (validate_data rules today df).2.1.passed ↔
      (check1 df).status = CStatus.pass := by
  rw [mem_passed_iff]
  simp only [checks, List.mem_cons, List.not_mem_nil, or_false]
  constructor
  · rintro ⟨c, hc, hs, hn⟩
    rcases hc with rfl | rfl | rfl | rfl | rfl | rfl | rfl | rfl | rfl | rfl
    · exact hs
    · rw [check2_name] at hn; exact absurd hn (by simp)
    · rw [check3_name] at hn; exact absurd hn (by simp)
    · rw [check4_name] at hn; exact absurd hn (by simp)
    · rw [check5_name] at hn; exact absurd hn (by simp)
    · rw [check6_name] at hn; exact absurd hn (by simp)
    · rw [check7_name] at hn; exact absurd hn (by simp)
    · rw [check8_name] at hn; exact absurd hn (by simp)
    · rw [check9_name] at hn; exact absurd hn (by simp)
    · rw [check10_name] at hn; exact absurd hn (by simp)
  · intro hs; exact ⟨check1 df, by simp, hs, check1_name df⟩

lemma anyNeg_iff :
    ((goldCol df).any optNeg || (sp500Col df).any optNeg) = true ↔
      ∃ r ∈ df, (∃ x, r.gold = some x ∧ x < 0) ∨ (∃ x, r.sp500 = some x ∧ x < 0) := by
  simp only [Bool.or_eq_true, List.any_eq_true, goldCol, sp500Col,
    List.mem_map]
  constructor
  · rintro (⟨o, ⟨r, hr, rfl⟩, ho⟩ | ⟨o, ⟨r, hr, rfl⟩, ho⟩)
    · exact ⟨r, hr, Or.inl ((optNeg_iff _).1 ho)⟩
    · exact ⟨r, hr, Or.inr ((optNeg_iff _).1 ho)⟩
  · rintro ⟨r, hr, h | h⟩
    · exact Or.inl ⟨r.gold, ⟨r, hr, rfl⟩, (optNeg_iff _).2 h⟩
    · exact Or.inr ⟨r.sp500, ⟨r, hr, rfl⟩, (optNeg_iff _).2 h⟩

end ValidatorLemmas

/-- C1: for every dataset the quality score returned by the validator is
100 minus 10 per failed check minus 2 per warning check clamped to
[0, 100]; with zero failed and zero warning checks it is 100, with one
failed check and no warnings 90, with two warnings and no failures 96; and
the returned validity flag is true iff the failed-check list is empty. -/
theorem c1_quality_score (rules : Rules) (today : Int) (df : Dataset) :
    (validate_data rules today df).2.2 =
      min 100 (max 0 (100 - 10 * ((validate_data rules today df).2.1.failed.length : ℚ)
        - 2 * ((validate_data rules today df).2.1.warnings.length : ℚ)))
    ∧ ((validate_data rules today df).1 = true ↔
        (validate_data rules today df).2.1.failed = [])
    ∧ ((validate_data rules today df).2.1.failed.length = 0 →
        (validate_data rules today df).2.1.warnings.length = 0 →
        (validate_data rules today df).2.2 = 100)
    ∧ ((validate_data rules today df).2.1.failed.length = 1 →
        (validate_data rules today df).2.1.warnings.length = 0 →
        (validate_data rules today df).2.2 = 90)
    ∧ ((validate_data rules today df).2.1.failed.length = 0 →
        (validate_data rules today df).2.1.warnings.length = 2 →
        (validate_data rules today df).2.2 = 96) := by
  refine ⟨?_, ?_, ?_, ?_, ?_⟩
  · simp only [validate_data]
    ring_nf
  · simp only [validate_data, List.isEmpty_iff]
  · intro hf hw
    simp only [validate_data] at hf hw ⊢
    rw [hf, hw]; norm_num
  · intro hf hw
    simp only [validate_data] at hf hw ⊢
    rw [hf, hw]; norm_num
  · intro hf hw
    simp only [validate_data] at hf hw ⊢
    rw [hf, hw]; norm_num

lemma df0_counts :
    (validate_data rules0 1000 df0).2.1.failed.length = 0
      ∧ (validate_data rules0 1000 df0).2.1.warnings.length = 0 := by
  norm_num [validate_data, checks, check1, check2, check3, check4, check5,
    check6, check7, check8, check9, check10, df0, rules0, goldCol, sp500Col,
    dateCol, dateSpan, optNeg, countExceed, absChangeExceeds, ffill, gapCount,
    dupCount, dupCountAux, countSome, List.filterMap_cons, id_eq]
  exact ⟨fun h => CStatus.noConfusion h, fun h => CStatus.noConfusion h⟩

/-- Witness for C1 at the concrete clean dataset `df0`, which has zero
failed and zero warning checks and scores 100. -/
theorem c1_quality_score_witness :
    ((validate_data rules0 1000 df0).2.1.failed.length = 0
      ∧ (validate_data rules0 1000 df0).2.1.warnings.length = 0)
    ∧ (validate_data rules0 1000 df0).2.2 = 100 :=
  ⟨df0_counts,
    (c1_quality_score rules0 1000 df0).2.2.1 df0_counts.1 df0_counts.2⟩

/-- C5 amended: the validator's first checklist item, named
"No negative prices", is tagged failed iff some price in either column is
strictly negative, and passed otherwise; a price exactly equal to 0 does
not fail it (the source compares with `< 0`, not `<= 0`). -/
theorem c5_check1_negative_only (rules : Rules) (today : Int) (df : Dataset) :
    ("No negative prices" ∈ (validate_data rules today df).2.1.failed ↔
      ∃ r ∈ df, (∃ x, r.gold = some x ∧ x < 0) ∨ (∃ x, r.sp500 = some x ∧ x < 0))
    ∧ ("No negative prices" ∈ (validate_data rules today df).2.1.passed ↔
      ¬ ∃ r ∈ df, (∃ x, r.gold = some x ∧ x < 0) ∨ (∃ x, r.sp500 = some x ∧ x < 0)) := by
  constructor
  · rw [mem_failed_check1, check1_status_fail, anyNeg_iff]
  · rw [mem_passed_check1, check1_status_pass]
    simp only [anyNeg_iff]

/-- C5 counterexample: the dataset `df5` contains a gold price exactly
equal to 0, yet check 1 is not tagged failed (it is tagged passed),
refuting the claim that a zero price does not pass the check. -/
theorem c5_counterexample :
    (∃ r ∈ df5, ∃ x, r.gold = some x ∧ x ≤ 0)
    ∧ "No negative prices" ∉ (validate_data rules0 1000 df5).2.1.failed
    ∧ "No negative prices" ∈ (validate_data rules0 1000 df5).2.1.passed := by
  have hpass : (check1 df5).status = CStatus.pass := by
    norm_num [check1, df5, goldCol, sp500Col, optNeg]
  refine ⟨⟨⟨1, some 0, some 50⟩, by simp [df5], 0, rfl, le_refl 0⟩, ?_, ?_⟩
  · rw [mem_failed_check1, hpass]
    exact fun h => CStatus.noConfusion h
  · rw [mem_passed_check1]
    exact hpass

/-- C9: running the validator twice on the same unchanged dataset yields
identical results (same passed, failed and warning lists, detail map,
summary and score): the method reads only the rule dictionary and leaves
the object state untouched, so the second run coincides with the first. -/
theorem c9_validator_idempotent (s : ProcState) (today : Int) (df : Dataset) :
    validateRun ((validateRun s today df).2) today df = validateRun s today df := rfl

/-! Heap model for `DataProcessor.process_data` (claim C10).  Python
DataFrames are mutable objects; to state that the caller's input frame is
left unchanged, frames live in a store of allocation cells, in-place
column assignments update a cell, and operations that build a new frame
(`df.copy()`, `sort_values(...)`) append a fresh cell. -/

/-- A DataFrame as handled by `process_data`: the three base columns held
row-aligned, plus the four derived columns, absent (`none`) until the
pipeline assigns them. -/
structure PDF where
  rows : List Row
  gold_return : Option (List (Option ℚ))
  sp500_return : Option (List (Option ℚ))
  gold_cumulative : Option (List (Option ℚ))
  sp500_cumulative : Option (List (Option ℚ))
deriving DecidableEq

instance : Inhabited PDF := ⟨⟨[], none, none, none, none⟩⟩

/-- The heap of DataFrame objects, addressed by allocation index. -/
abbrev Store := List PDF

/-- A reference to a DataFrame cell. -/
abbrev Ref := Nat

/-- In-place mutation of the object behind a reference. -/
def updateAt (σ : Store) (r : Ref) (f : PDF → PDF) : Store :=
  σ.set r (f (σ.getD r default))

/-- Insertion of a row before the first strictly later date: used to model
`sort_values(date)` (whose ordering among equal dates the source leaves to
the quicksort default; any deterministic order serves the frame claim). -/
def insertRow (r : Row) : List Row → List Row
  | [] => [r]
  | s :: ss => if r.date < s.date then r :: s :: ss else s :: insertRow r ss

/-- Deterministic sort of the rows by ascending date. -/
def sortRows : List Row → List Row
  | [] => []
  | r :: rs => insertRow r (sortRows rs)

/-- One elementwise step of `pct_change`: NaN when either neighbour is
missing; a zero previous value yields an IEEE infinity or NaN in pandas,
both modelled as `none` (the pipeline has filled the columns, and no claim
depends on a zero denominator). -/
def pcStep : Option ℚ → Option ℚ → Option ℚ
  | some pv, some cv => if pv = 0 then none else some ((cv - pv) / pv)
  | _, _ => none

/-- Pandas `pct_change` on a column: pad-fill, then the elementwise change
against the previous entry, with NaN in the first position. -/
def pctChangeList (l : List (Option ℚ)) : List (Option ℚ) :=
  match l with
  | [] => []
  | x :: xs =>
    let filled := ffill none (x :: xs)
    none :: List.zipWith pcStep filled (filled.drop 1)

/-- Multiply a column by a scalar (NaN entries stay NaN). -/
def seriesMul (c : ℚ) (l : List (Option ℚ)) : List (Option ℚ) :=
  l.map (·.map (· * c))

/-- Pandas `cumprod` with its default `skipna=True`: NaN entries stay NaN
in the output but do not poison the running product. -/
def cumprodSkip (acc : ℚ) : List (Option ℚ) → List (Option ℚ)
  | [] => []
  | none :: xs => none :: cumprodSkip acc xs
  | some v :: xs => some (acc * v) :: cumprodSkip (acc * v) xs

/-- The cumulative-return column `(1 + r/100).cumprod() - 1`. -/
def cumulativeFrom (r : List (Option ℚ)) : List (Option ℚ) :=
  (cumprodSkip 1 (r.map (·.map (fun x => 1 + x / 100)))).map (·.map (· - 1))

/-- The body of `_handle_missing_values`: forward fill then backward fill
of both price columns, assigned in place on the argument object. -/
def fillRows (rows : List Row) : List Row :=
  let g := bfill (ffill none (rows.map (·.gold)))
  let s := bfill (ffill none (rows.map (·.sp500)))
  (rows.zip (g.zip s)).map (fun p => ⟨p.1.date, p.2.1, p.2.2⟩)

/-- Shallow embedding of `DataProcessor._handle_missing_values`: mutates
the argument object in place and returns the same reference. -/
def handle_missing_values (σ : Store) (r : Ref) : Store × Ref :=
  (updateAt σ r (fun df => { df with rows := fillRows df.rows }), r)

/-- Shallow embedding of `DataProcessor.process_data`: copies the input
frame, normalizes the date column, sorts by date into a fresh object,
fills missing values, coerces the price columns, and assigns the four
derived return columns, returning a reference to the processed frame.
Every mutation targets the copy or the sorted frame, never the caller's
input cell. -/
def process_data (σ : Store) (r : Ref) : Store × Ref :=
  let σ1 := σ ++ [σ.getD r default]
  let r1 : Ref := σ.length
  let σ2 := updateAt σ1 r1 (fun df => df)
  let σ3 := σ2 ++ [{ σ2.getD r1 default with rows := sortRows (σ2.getD r1 default).rows }]
  let r2 : Ref := σ2.length
  let σ4 := (handle_missing_values σ3 r2).1
  let σ5 := updateAt σ4 r2 (fun df => df)
  let σ6 := updateAt σ5 r2 (fun df =>
    { df with gold_return := some (seriesMul 100 (pctChangeList (df.rows.map (·.gold)))) })
  let σ7 := updateAt σ6 r2 (fun df =>
    { df with sp500_return := some (seriesMul 100 (pctChangeList (df.rows.map (·.sp500)))) })
  let σ8 := updateAt σ7 r2 (fun df =>
    { df with gold_cumulative := some (cumulativeFrom (df.gold_return.getD [])) })
  let σ9 := updateAt σ8 r2 (fun df =>
    { df with sp500_cumulative := some (cumulativeFrom (df.sp500_return.getD [])) })
  (σ9, r2)

lemma getElem?_updateAt_ne (σ : Store) (i j : Nat) (f : PDF → PDF) (h : i ≠ j) :
    (updateAt σ i f)[j]? = σ[j]? := by
  simp [updateAt, List.getElem?_set_ne h]

lemma length_updateAt (σ : Store) (i : Nat) (f : PDF → PDF) :
    (updateAt σ i f).length = σ.length := by
  simp [updateAt]

/-- C10: `process_data` returns a fresh processed frame and leaves the
caller's input object unchanged: the cell holding the argument is
identical after the call (the body copies first and mutates only the copy
and the sorted frame), and the returned reference is a newly allocated
cell distinct from the input. -/
theorem c10_process_data_preserves_input (σ : Store) (r : Nat)
    (h : r < σ.length) :
    (process_data σ r).1[r]? = σ[r]? ∧ (process_data σ r).2 = σ.length + 1 := by
  have hB : (updateAt (σ ++ [σ.getD r default]) σ.length (fun df => df)).length
      = σ.length + 1 := by rw [length_updateAt]; simp
  have hne2 : (updateAt (σ ++ [σ.getD r default]) σ.length (fun df => df)).length ≠ r := by
    rw [hB]; omega
  have hlt : r < (updateAt (σ ++ [σ.getD r default]) σ.length (fun df => df)).length := by
    rw [hB]; omega
  have hne1 : σ.length ≠ r := by omega
  simp only [process_data, handle_missing_values]
  refine ⟨?_, ?_⟩
  · rw [getElem?_updateAt_ne _ _ _ _ hne2, getElem?_updateAt_ne _ _ _ _ hne2,
      getElem?_updateAt_ne _ _ _ _ hne2, getElem?_updateAt_ne _ _ _ _ hne2,
      getElem?_updateAt_ne _ _ _ _ hne2, getElem?_updateAt_ne _ _ _ _ hne2,
      List.getElem?_append_left hlt, getElem?_updateAt_ne _ _ _ _ hne1,
      List.getElem?_append_left h]
  · rw [hB]

/-- Witness for C10 at a concrete one-cell store. -/
theorem c10_process_data_preserves_input_witness :
    0 < ([(default : PDF)] : Store).length
    ∧ ((process_data [default] 0).1[0]? = ([(default : PDF)] : Store)[0]?
        ∧ (process_data [default] 0).2 = 2) :=
  ⟨by decide, c10_process_data_preserves_input [default] 0 (by decide)⟩

/-! Fetcher model (claims C2 and C3): `DataFetcher.fetch_all` and
`DataFetcher._fetch_with_retry`.  The network is an oracle: a function
from the attempt number (respectively the ticker) to what `yf.download`
(respectively the retry helper) produced. -/

/-- Whether `sub` is a prefix of the first list (character comparison). -/
def listStarts : List Char → List Char → Bool
  | _, [] => true
  | [], _ :: _ => false
  | a :: as, b :: bs => a == b && listStarts as bs

/-- Whether `sub` occurs contiguously inside the first list (the Python
`sub in s` test). -/
def listHas : List Char → List Char → Bool
  | [], sub => sub.isEmpty
  | h :: t, sub => listStarts (h :: t) sub || listHas t sub

/-- The rate-limit keyword list of `_fetch_with_retry`. -/
def rateLimitKeywords : List String :=
  ["rate", "too many", "throttle", "429", "503", "timeout", "403"]

/-- The transient-error classifier
`any(keyword in str(e).lower() for keyword in [...])`. -/
def isRateLimited (msg : String) : Bool :=
  rateLimitKeywords.any (fun k => listHas (msg.toList.map Char.toLower) k.toList)

/-- Result of one `yf.download` call: a close-price column (possibly
empty, possibly holding NaNs) or a raised exception with its message. -/
inductive DL where
  | ok (close : List (Option ℚ))
  | exn (msg : String)
deriving DecidableEq

/-- Result of `_fetch_with_retry` as seen by its caller: cleaned data, a
`None` return, or an exception propagating out of the final attempt. -/
inductive FetchResult where
  | data (df : List ℚ)
  | noData
  | raised (msg : String)
deriving DecidableEq

/-- The loop body of `_fetch_with_retry`, with one constructor layer of
fuel per remaining iteration (`fuel = maxRetries - attempt` along the
source's `for attempt in range(max_retries)`; the fallthrough when fuel
runs out is the trailing `return None`).  A non-empty download has its
close column extracted and its NaNs dropped, and is returned — or `None`
is returned — on the spot, ending the loop.  An exception classified as
transient before the last attempt sleeps `5 * 2 ** attempt` seconds and
retries; on the last attempt the exception is re-raised; any other
exception falls through to the next iteration without sleeping.  Returns
the outcome, the list of sleeps performed, and the number of attempts
made. -/
def retryLoop (f : Nat → DL) (maxRetries : Nat) :
    Nat → Nat → List Nat → FetchResult × List Nat × Nat
  | 0, attempt, sleeps => (.noData, sleeps, attempt)
  | fuel + 1, attempt, sleeps =>
    match f attempt with
    | .ok close =>
      if close.isEmpty then (.noData, sleeps, attempt + 1)
      else
        let cleaned := close.filterMap id
        if cleaned.isEmpty then (.noData, sleeps, attempt + 1)
        else (.data cleaned, sleeps, attempt + 1)
    | .exn msg =>
      if isRateLimited msg = true ∧ attempt < maxRetries - 1 then
        retryLoop f maxRetries fuel (attempt + 1) (sleeps ++ [5 * 2 ^ attempt])
      else if attempt = maxRetries - 1 then (.raised msg, sleeps, attempt + 1)
      else retryLoop f maxRetries fuel (attempt + 1) sleeps

/-- Shallow embedding of `DataFetcher._fetch_with_retry` (default
`max_retries = 3`). -/
def fetch_with_retry (f : Nat → DL) (maxRetries : Nat) :
    FetchResult × List Nat × Nat :=
  retryLoop f maxRetries maxRetries 0 []

/-- The failure entry `fetch_all` records for a ticker, if any: the
"(No data found)" soft entry for an empty or `None` result, or the
caught-exception entry. -/
def failEntry (fetch : String → FetchResult) (t : String) : Option String :=
  match fetch t with
  | .data df => if df.isEmpty then some (t ++ " (No data found)") else none
  | .noData => some (t ++ " (No data found)")
  | .raised m => some ("Failed to fetch " ++ t ++ ": " ++ m)

/-- The `raw_data` entry `fetch_all` records for a ticker, if any. -/
def succEntry (fetch : String → FetchResult) (t : String) :
    Option (String × List ℚ) :=
  match fetch t with
  | .data df => if df.isEmpty then none else some (t, df)
  | _ => none

/-- Python dictionary assignment `raw_data[ticker] = df` on an
insertion-ordered association list: overwrite in place if the key exists,
append otherwise. -/
def dictSet (l : List (String × List ℚ)) (k : String) (v : List ℚ) :
    List (String × List ℚ) :=
  if l.any (fun p => p.1 == k) then
    l.map (fun p => if p.1 == k then (k, v) else p)
  else l ++ [(k, v)]

/-- The per-ticker loop of `fetch_all`: a non-empty result goes into
`raw_data`, an empty or `None` result appends a "(No data found)" entry,
and a raised exception is caught and appends a "Failed to fetch" entry. -/
def fetchLoop (fetch : String → FetchResult) :
    List String → List (String × List ℚ) → List String →
      List (String × List ℚ) × List String
  | [], raw, failed => (raw, failed)
  | t :: ts, raw, failed =>
    match fetch t with
    | .data df =>
      if df.isEmpty then
        fetchLoop fetch ts raw (failed ++ [t ++ " (No data found)"])
      else fetchLoop fetch ts (dictSet raw t df) failed
    | .noData => fetchLoop fetch ts raw (failed ++ [t ++ " (No data found)"])
    | .raised m =>
        fetchLoop fetch ts raw (failed ++ ["Failed to fetch " ++ t ++ ": " ++ m])

/-- Shallow embedding of `DataFetcher.fetch_all`: processes every ticker,
then returns `(None, failed)` when nothing at all was retrieved and
`(raw_data, failed)` otherwise. -/
def fetch_all (tickers : List String) (fetch : String → FetchResult) :
    Option (List (String × List ℚ)) × List String :=
  let res := fetchLoop fetch tickers [] []
  if res.1.isEmpty then (none, res.2) else (some res.1, res.2)

lemma dictSet_append (l : List (String × List ℚ)) (k : String) (v : List ℚ)
    (h : ∀ p ∈ l, p.1 ≠ k) : dictSet l k v = l ++ [(k, v)] := by
  have : l.any (fun p => p.1 == k) = false := by
    simp only [List.any_eq_false]
    intro p hp
    simpa using h p hp
  simp [dictSet, this]

lemma fetchLoop_eq (fetch : String → FetchResult) (ts : List String)
    (raw : List (String × List ℚ)) (failed : List String)
    (hnd : ts.Nodup) (hdisj : ∀ t ∈ ts, ∀ p ∈ raw, p.1 ≠ t) :
    fetchLoop fetch ts raw failed =
      (raw ++ ts.filterMap (succEntry fetch),
       failed ++ ts.filterMap (failEntry fetch)) := by
  induction ts generalizing raw failed with
  | nil => simp [fetchLoop]
  | cons t ts ih =>
    have hndtail : ts.Nodup := (List.nodup_cons.1 hnd).2
    have hhead : t ∉ ts := (List.nodup_cons.1 hnd).1
    have hdtail : ∀ u ∈ ts, ∀ p ∈ raw, p.1 ≠ u :=
      fun u hu p hp => hdisj u (List.mem_cons_of_mem _ hu) p hp
    cases hft : fetch t with
    | data df =>
      by_cases hemp : df.isEmpty
      · have hsucc : succEntry fetch t = none := by simp [succEntry, hft, hemp]
        have hfail : failEntry fetch t = some (t ++ " (No data found)") := by
          simp [failEntry, hft, hemp]
        simp only [fetchLoop, hft, hemp, if_true]
        rw [ih _ _ hndtail hdtail]
        simp [List.filterMap_cons, hsucc, hfail]
      · have hsucc : succEntry fetch t = some (t, df) := by
          simp [succEntry, hft, hemp]
        have hfail : failEntry fetch t = none := by simp [failEntry, hft, hemp]
        have hdisj2 : ∀ u ∈ ts, ∀ p ∈ raw ++ [(t, df)], p.1 ≠ u := by
          intro u hu p hp
          rcases List.mem_append.1 hp with hp | hp
          · exact hdtail u hu p hp
          · have hp2 : p = (t, df) := by simpa using hp
            subst hp2
            intro hEq
            dsimp only at hEq
            subst hEq
            exact hhead hu
        simp only [fetchLoop, hft, hemp, if_false]
        rw [dictSet_append raw t df (fun p hp => hdisj t (List.mem_cons_self t ts) p hp)]
        rw [ih _ _ hndtail hdisj2]
        simp [List.filterMap_cons, hsucc, hfail]
    | noData =>
      have hsucc : succEntry fetch t = none := by simp [succEntry, hft]
      have hfail : failEntry fetch t = some (t ++ " (No data found)") := by
        simp [failEntry, hft]
      simp only [fetchLoop, hft]
      rw [ih _ _ hndtail hdtail]
      simp [List.filterMap_cons, hsucc, hfail]
    | raised m =>
      have hsucc : succEntry fetch t = none := by simp [succEntry, hft]
      have hfail : failEntry fetch t = some ("Failed to fetch " ++ t ++ ": " ++ m) := by
        simp [failEntry, hft]
      simp only [fetchLoop, hft]
      rw [ih _ _ hndtail hdtail]
      simp [List.filterMap_cons, hsucc, hfail]

lemma filterMap_eq_nil_of_all_none {α β : Type} (l : List α) (f : α → Option β)
    (h : ∀ x ∈ l, f x = none) : l.filterMap f = [] := by
  induction l with
  | nil => rfl
  | cons a l ih =>
    simp [List.filterMap_cons, h a (by simp),
      ih (fun x hx => h x (by simp [hx]))]

lemma length_filterMap_of_all_some {α β : Type} (l : List α) (f : α → Option β)
    (h : ∀ x ∈ l, f x ≠ none) : (l.filterMap f).length = l.length := by
  induction l with
  | nil => rfl
  | cons a l ih =>
    rcases ho : f a with _ | b
    · exact absurd ho (h a (by simp))
    · simp [List.filterMap_cons, ho, ih (fun x hx => h x (by simp [hx]))]

lemma succEntry_none_iff_failEntry_some (fetch : String → FetchResult)
    (t : String) : succEntry fetch t = none ↔ failEntry fetch t ≠ none := by
  cases hft : fetch t with
  | data df =>
    by_cases hemp : df.isEmpty <;> simp [succEntry, failEntry, hft, hemp]
  | noData => simp [succEntry, failEntry, hft]
  | raised m => simp [succEntry, failEntry, hft]

lemma fetch_all_eq (tickers : List String) (fetch : String → FetchResult)
    (hnd : tickers.Nodup) :
    fetch_all tickers fetch =
      (if tickers.filterMap (succEntry fetch) = [] then none
        else some (tickers.filterMap (succEntry fetch)),
       tickers.filterMap (failEntry fetch)) := by
  have hloop := fetchLoop_eq fetch tickers [] [] hnd (by simp)
  simp only [fetch_all, hloop, List.nil_append]
  by_cases hc : tickers.filterMap (succEntry fetch) = []
  · simp [hc]
  · simp [hc, List.isEmpty_iff]

/-- C2: for every duplicate-free list of requested tickers, when at least
one ticker yields a non-empty series, `fetch_all` returns exactly the
successful series together with the per-ticker failure entries (partial
failure does not fail the batch); when every ticker yields an empty
series, no series, or an error, it returns no data and a failure list with
exactly one soft-failure entry per requested ticker, in request order, and
(being a total function of the per-ticker outcomes, every exception being
caught in the loop) raises nothing to its caller. -/
theorem c2_fetch_all_partial_failure (tickers : List String)
    (fetch : String → FetchResult) (hnd : tickers.Nodup) :
    ((∃ t ∈ tickers, succEntry fetch t ≠ none) →
      (fetch_all tickers fetch).1 = some (tickers.filterMap (succEntry fetch))
        ∧ (fetch_all tickers fetch).2 = tickers.filterMap (failEntry fetch))
    ∧ ((∀ t ∈ tickers, succEntry fetch t = none) →
      (fetch_all tickers fetch).1 = none
        ∧ (fetch_all tickers fetch).2 = tickers.filterMap (failEntry fetch)
        ∧ (fetch_all tickers fetch).2.length = tickers.length) := by
  rw [fetch_all_eq tickers fetch hnd]
  constructor
  · rintro ⟨t, ht, hs⟩
    have hne : tickers.filterMap (succEntry fetch) ≠ [] := by
      intro hnil
      rcases ho : succEntry fetch t with _ | v
      · exact hs ho
      · have hv : v ∈ tickers.filterMap (succEntry fetch) :=
          List.mem_filterMap.2 ⟨t, ht, ho⟩
        rw [hnil] at hv
        exact List.not_mem_nil v hv
    simp [hne]
  · intro hall
    have hnil : tickers.filterMap (succEntry fetch) = [] :=
      filterMap_eq_nil_of_all_none _ _ hall
    have hlen : (tickers.filterMap (failEntry fetch)).length = tickers.length :=
      length_filterMap_of_all_some _ _
        (fun t ht => (succEntry_none_iff_failEntry_some fetch t).1 (hall t ht))
    simp [hnil, hlen]

/-- Witness for C2: with tickers GLD and SPY and a fetch that returns no
rows for either, `fetch_all` reports overall failure with two failure
entries. -/
theorem c2_fetch_all_partial_failure_witness :
    ((["GLD", "SPY"] : List String).Nodup
      ∧ (∀ t ∈ (["GLD", "SPY"] : List String),
          succEntry (fun _ => FetchResult.noData) t = none))
    ∧ ((fetch_all ["GLD", "SPY"] (fun _ => FetchResult.noData)).1 = none
        ∧ (fetch_all ["GLD", "SPY"] (fun _ => FetchResult.noData)).2 =
            (["GLD", "SPY"] : List String).filterMap
              (failEntry (fun _ => FetchResult.noData))
        ∧ (fetch_all ["GLD", "SPY"] (fun _ => FetchResult.noData)).2.length = 2) :=
  ⟨⟨by simp, by intro t _; simp [succEntry]⟩,
    (c2_fetch_all_partial_failure ["GLD", "SPY"] (fun _ => FetchResult.noData)
      (by simp)).2 (by intro t _; simp [succEntry])⟩

/-- C3 amended: a single-symbol fetch makes at most 3 attempts.  When all
three attempts raise, the error raised by the last attempt propagates and
the waits performed are 5 s after a transient first failure and 10 s after
a transient second failure — and nothing else: no 20 s wait ever occurs,
and a non-transient exception also falls through to the next attempt (with
no wait) rather than failing on the spot.  An empty or all-NaN download
returns `None` immediately on the first attempt without any retry. -/
theorem c3_retry_policy (f : Nat → DL) :
    (∀ m0 m1 m2 : String, f 0 = DL.exn m0 → f 1 = DL.exn m1 → f 2 = DL.exn m2 →
      fetch_with_retry f 3 =
        (.raised m2,
         (if isRateLimited m0 then [5] else []) ++
           (if isRateLimited m1 then [10] else []),
         3))
    ∧ (∀ close, f 0 = DL.ok close → close.filterMap id = [] →
        fetch_with_retry f 3 = (.noData, [], 1))
    ∧ (∀ close, f 0 = DL.ok close → close.filterMap id ≠ [] →
        fetch_with_retry f 3 = (.data (close.filterMap id), [], 1)) := by
  refine ⟨?_, ?_, ?_⟩
  · intro m0 m1 m2 h0 h1 h2
    by_cases r0 : isRateLimited m0 <;> by_cases r1 : isRateLimited m1 <;>
      simp [fetch_with_retry, retryLoop, h0, h1, h2, r0, r1]
  · intro close h0 hcl
    by_cases hemp : close.isEmpty <;>
      simp [fetch_with_retry, retryLoop, h0, hemp, hcl]
  · intro close h0 hcl
    have hemp : close.isEmpty = false := by
      rcases close with _ | ⟨a, l⟩
      · simp at hcl
      · simp
    simp [fetch_with_retry, retryLoop, h0, hemp, hcl]

/-- Witness for C3 at a fetch whose three attempts all raise a transient
rate-limit error: the loop sleeps 5 s then 10 s and re-raises on the third
attempt. -/
theorem c3_retry_policy_witness :
    ((fun _ : Nat => DL.exn "429 Too Many Requests") 0 = DL.exn "429 Too Many Requests"
      ∧ (fun _ : Nat => DL.exn "429 Too Many Requests") 1 = DL.exn "429 Too Many Requests"
      ∧ (fun _ : Nat => DL.exn "429 Too Many Requests") 2 = DL.exn "429 Too Many Requests")
    ∧ fetch_with_retry (fun _ => DL.exn "429 Too Many Requests") 3 =
        (.raised "429 Too Many Requests",
         (if isRateLimited "429 Too Many Requests" then [5] else []) ++
           (if isRateLimited "429 Too Many Requests" then [10] else []),
         3) :=
  ⟨⟨rfl, rfl, rfl⟩,
    (c3_retry_policy (fun _ => DL.exn "429 Too Many Requests")).1
      "429 Too Many Requests" "429 Too Many Requests" "429 Too Many Requests"
      rfl rfl rfl⟩

/-- C3 counterexample: a fetch that raises the non-transient error
"bad symbol" on every attempt is attempted 3 times — the error is retried
(without any wait) and raised only after the final attempt, not on the
first attempt as the claim states; and a consistently transient failure
performs exactly the waits 5 s and 10 s, never a 20 s wait. -/
theorem c3_counterexample :
    isRateLimited "bad symbol" = false
    ∧ fetch_with_retry (fun _ => DL.exn "bad symbol") 3
        = (.raised "bad symbol", [], 3)
    ∧ (fetch_with_retry (fun _ => DL.exn "bad symbol") 3).2.2 ≠ 1
    ∧ fetch_with_retry (fun _ => DL.exn "429 Too Many Requests") 3
        = (.raised "429 Too Many Requests", [5, 10], 3)
    ∧ (fetch_with_retry (fun _ => DL.exn "429 Too Many Requests") 3).2.1 ≠ [5, 10, 20] :=
  ⟨by decide, by decide, by decide, by decide, by decide⟩

/-! Cache manager model (claim C4): `CacheManager.save_cache`,
`CacheManager.load_cache` and `CacheManager.is_cache_valid`.  Timestamps
are seconds as integers; a cache file is absent, present-but-corrupt
(reading or parsing raises), or readable. -/

/-- The sidecar metadata record.  A `none` timestamp models a missing or
non-ISO field, on which `datetime.fromisoformat` raises (the exception is
caught by `is_cache_valid`, giving invalid). -/
structure CacheMeta where
  cached_at : Option Int
  expires_at : Option Int
  rows : Nat
deriving DecidableEq

/-- The cache directory: each artifact is absent (`none`), present but
unreadable or unparseable (`some none`), or readable (`some (some _)`). -/
structure CacheFS where
  csv : Option (Option Dataset)
  parquet : Option (Option Dataset)
  metaFile : Option (Option CacheMeta)
deriving DecidableEq

/-- The third component of `load_cache`'s result: a reason dictionary on
a miss, or the loaded metadata on a hit. -/
inductive LoadInfo where
  | reason (s : String)
  | meta (m : CacheMeta)
deriving DecidableEq

/-- `CacheManager.is_cache_valid` on an explicit metadata record: parse
`expires_at` and test `now < expires_at`; a parse failure is caught and
gives invalid. -/
def is_cache_valid (now : Int) (m : CacheMeta) : Bool :=
  match m.expires_at with
  | some e => decide (now < e)
  | none => false

/-- Shallow embedding of `CacheManager.load_cache`: a missing parquet
file, missing metadata file, unparseable metadata, expired entry, or
unreadable parquet each yield `(None, False, reason)`; only a parseable,
unexpired entry with a readable artifact yields `(df, True, metadata)`.
Every failure is caught inside the method (the whole body sits in a
`try/except`), so nothing propagates to the caller. -/
def load_cache (now : Int) (fs : CacheFS) : Option Dataset × Bool × LoadInfo :=
  match fs.parquet with
  | none => (none, false, .reason "No cache file found")
  | some pq =>
    match fs.metaFile with
    | none => (none, false, .reason "No cache metadata found")
    | some mf =>
      match mf with
      | none => (none, false, .reason "Error loading cache")
      | some m =>
        if is_cache_valid now m = false then (none, false, .reason "Cache expired")
        else
          match pq with
          | none => (none, false, .reason "Error loading cache")
          | some df => (some df, true, .meta m)

/-- Shallow embedding of `CacheManager.save_cache` on the success path:
writes the CSV and parquet artifacts and a fresh metadata record with
`cached_at = now` and `expires_at = now + duration_hours * 3600`,
overwriting any prior entry. -/
def save_cache (now durationHours : Int) (_fs : CacheFS) (df : Dataset) :
    CacheFS × Bool :=
  ({ csv := some (some df),
     parquet := some (some df),
     metaFile := some (some ⟨some now, some (now + durationHours * 3600), df.length⟩) },
   true)

/-- C4: `load_cache` returns valid iff the metadata is readable and
parseable, the current time is strictly before the stored `expires_at`,
and the artifact is readable; every failure yields `(None, False,
reason)` without propagating; a load at the save time after a save with a
positive duration is valid and returns the saved dataset; and a load whose
stored `expires_at` does not exceed the current time is invalid with a
`None` payload. -/
theorem c4_load_cache (now : Int) (fs : CacheFS) :
    ((load_cache now fs).2.1 = true ↔
      ∃ m e df, fs.metaFile = some (some m) ∧ m.expires_at = some e
        ∧ now < e ∧ fs.parquet = some (some df))
    ∧ ((load_cache now fs).2.1 = false →
        (load_cache now fs).1 = none
          ∧ ∃ s, (load_cache now fs).2.2 = LoadInfo.reason s)
    ∧ (∀ (durationHours : Int) (df : Dataset), 0 < durationHours →
        (load_cache now (save_cache now durationHours fs df).1).2.1 = true
          ∧ (load_cache now (save_cache now durationHours fs df).1).1 = some df)
    ∧ (∀ m e, fs.metaFile = some (some m) → m.expires_at = some e → e ≤ now →
        (load_cache now fs).2.1 = false ∧ (load_cache now fs).1 = none) := by
  obtain ⟨cs, pq, mf⟩ := fs
  refine ⟨?_, ?_, ?_, ?_⟩
  · rcases pq with _ | (_ | df) <;> rcases mf with _ | (_ | m) <;>
      try simp [load_cache]
    all_goals
      rcases he : m.expires_at with _ | e
      · simp [load_cache, is_cache_valid, he]
      · by_cases hlt : now < e <;>
          simp [load_cache, is_cache_valid, he, hlt]
  · rcases pq with _ | (_ | df) <;> rcases mf with _ | (_ | m) <;>
      try simp [load_cache]
    all_goals
      rcases he : m.expires_at with _ | e
      · simp [load_cache, is_cache_valid, he]
      · by_cases hlt : now < e <;>
          simp [load_cache, is_cache_valid, he, hlt]
  · intro durationHours df hdur
    have hlt : now < now + durationHours * 3600 := by omega
    simp [load_cache, save_cache, is_cache_valid, hlt]
  · intro m e hmf hee hle
    have hmf2 : mf = some (some m) := hmf
    subst hmf2
    have hlt : ¬ now < e := by omega
    rcases pq with _ | (_ | df) <;>
      simp [load_cache, is_cache_valid, hee, hlt]

/-- Witness for C4: saving an empty dataset with the default 24-hour
duration and loading at the same instant yields a valid cache holding the
saved dataset. -/
theorem c4_load_cache_witness :
    (0 : Int) < 24
    ∧ ((load_cache 0 (save_cache 0 24 ⟨none, none, none⟩ []).1).2.1 = true
        ∧ (load_cache 0 (save_cache 0 24 ⟨none, none, none⟩ []).1).1 = some []) :=
  ⟨by decide, (c4_load_cache 0 ⟨none, none, none⟩).2.2.1 24 [] (by decide)⟩

/-! Metric functions of `StatsCalculator` in `utils.py` (claims C6, C7,
C8).  Series are exact rationals; the standard deviation and anything
downstream of a square root live in `ℝ`. -/

/-- `StatsCalculator.calculate_returns` with the default simple type:
`prices.pct_change() * 100` (NaN first entry). -/
def calculate_returns (prices : List ℚ) : List (Option ℚ) :=
  seriesMul 100 (pctChangeList (prices.map some))

/-- `StatsCalculator.calculate_cumulative_returns`:
`((prices / prices.iloc[0]) - 1) * 100` (pandas raises on an empty series;
the empty case is out of the claims' scope). -/
def calculate_cumulative_returns (prices : List ℚ) : List ℚ :=
  match prices with
  | [] => []
  | p0 :: _ => prices.map (fun p => (p / p0 - 1) * 100)

/-- Mean of a series (`Series.mean()`; the empty mean, NaN in pandas, is
never taken by the claims). -/
def sampleMean (xs : List ℚ) : ℚ := xs.sum / (xs.length : ℚ)

/-- Sample variance with the pandas default `ddof=1`
(`Series.var()` = sum of squared deviations over `n - 1`; for `n ≤ 1`
pandas yields NaN while this model yields 0 by the zero-denominator
convention of `ℚ` — the claims always guard with at least two
observations). -/
def sampleVar (xs : List ℚ) : ℚ :=
  (xs.map (fun x => (x - sampleMean xs) ^ 2)).sum / ((xs.length : ℚ) - 1)

/-- `Series.std()`: the square root of the sample variance. -/
noncomputable def stdR (xs : List ℚ) : ℝ := Real.sqrt ((sampleVar xs : ℚ) : ℝ)

/-- `StatsCalculator.calculate_volatility`:
`returns.std() * np.sqrt(periods)` (NaN entries are skipped by pandas). -/
noncomputable def calculate_volatility (returns : List (Option ℚ)) (periods : ℕ) : ℝ :=
  stdR (returns.filterMap id) * Real.sqrt (periods : ℝ)

/-- `StatsCalculator.calculate_sharpe_ratio`: excess mean over standard
deviation, annualized; the source guard `if volatility == 0: return 0` is
stated on the variance, equivalent by `stdR_eq_zero_iff` below. -/
noncomputable def calculate_sharpe_ratio (returns : List (Option ℚ))
    (risk_free_rate : ℚ) (periods : ℕ) : ℝ :=
  let xs := returns.filterMap id
  let excess := sampleMean xs - risk_free_rate / (periods : ℚ)
  if sampleVar xs = 0 then 0
  else ((excess : ℚ) : ℝ) / stdR xs * Real.sqrt (periods : ℝ)

/-- Pairs retained by pandas pairwise-complete-observation alignment:
positions where both series are non-NaN. -/
def pairSome (a b : List (Option ℚ)) : List (ℚ × ℚ) :=
  (List.zip a b).filterMap (fun p =>
    match p.1, p.2 with
    | some x, some y => some (x, y)
    | _, _ => none)

/-- Sample covariance (ddof 1) of a list of aligned pairs
(`Series.cov`). -/
def sampleCov (ps : List (ℚ × ℚ)) : ℚ :=
  let mx := sampleMean (ps.map Prod.fst)
  let my := sampleMean (ps.map Prod.snd)
  ((ps.map (fun p => (p.1 - mx) * (p.2 - my))).sum) / ((ps.length : ℚ) - 1)

/-- `StatsCalculator.calculate_correlation`: Pearson correlation of the
two `pct_change` series (`returns1.corr(returns2)`, pairwise complete
observations). -/
noncomputable def calculate_correlation (series1 series2 : List ℚ) : ℝ :=
  let r1 := pctChangeList (series1.map some)
  let r2 := pctChangeList (series2.map some)
  let ps := pairSome r1 r2
  ((sampleCov ps : ℚ) : ℝ) /
    (stdR (ps.map Prod.fst) * stdR (ps.map Prod.snd))

/-- `StatsCalculator.calculate_beta`:
`asset.cov(market) / market.var()`, returning 0 when the market variance
is 0. -/
def calculate_beta (asset_returns market_returns : List (Option ℚ)) : ℚ :=
  let covariance := sampleCov (pairSome asset_returns market_returns)
  let market_variance := sampleVar (market_returns.filterMap id)
  if market_variance = 0 then 0 else covariance / market_variance

/-- Running maximum of the available (non-NaN) values so far
(`expanding().max()`). -/
def expandingMax (acc : Option ℚ) : List (Option ℚ) → List (Option ℚ)
  | [] => []
  | x :: xs =>
    let acc2 := match acc, x with
      | none, v => v
      | some a, none => some a
      | some a, some v => some (max a v)
    acc2 :: expandingMax acc2 xs

/-- Minimum of the available (non-NaN) values (`Series.min()`; `none` for
an all-NaN or empty series). -/
def minSkip (l : List (Option ℚ)) : Option ℚ :=
  match l.filterMap id with
  | [] => none
  | x :: xs => some (xs.foldl min x)

/-- `StatsCalculator.calculate_max_drawdown`: cumulative product of
`1 + pct_change`, its running maximum, the relative drawdown, and the
minimum times 100 (NaN, i.e. `none`, for series too short to produce a
drawdown; a zero running maximum is modelled as `none` like the other
zero-denominator float cases). -/
def calculate_max_drawdown (prices : List ℚ) : Option ℚ :=
  let cumulative := cumprodSkip 1
    ((pctChangeList (prices.map some)).map (·.map (fun r => 1 + r)))
  let running_max := expandingMax none cumulative
  let drawdown := List.zipWith (fun c m =>
    match c, m with
    | some cv, some mv => if mv = 0 then none else some ((cv - mv) / mv)
    | _, _ => none) cumulative running_max
  (minSkip drawdown).map (· * 100)

lemma sampleVar_nonneg (xs : List ℚ) : 0 ≤ sampleVar xs := by
  rcases xs with _ | ⟨a, l⟩
  · simp [sampleVar]
  · rcases l with _ | ⟨b, l2⟩
    · simp [sampleVar, sampleMean]
    · apply div_nonneg
      · apply List.sum_nonneg
        intro x hx
        rcases List.mem_map.1 hx with ⟨y, _, rfl⟩
        positivity
      · have : (2 : ℚ) ≤ ((a :: b :: l2).length : ℚ) := by
          have : 2 ≤ (a :: b :: l2).length := by simp
          exact_mod_cast this
        linarith

lemma stdR_eq_zero_iff (xs : List ℚ) : stdR xs = 0 ↔ sampleVar xs = 0 := by
  unfold stdR
  rw [Real.sqrt_eq_zero (by exact_mod_cast sampleVar_nonneg xs)]
  exact_mod_cast Iff.rfl

lemma ffill_map_some (acc : Option ℚ) (l : List ℚ) :
    ffill acc (l.map some) = l.map some := by
  induction l generalizing acc with
  | nil => rfl
  | cons a l ih => simp [ffill, ih]

lemma zipWith_pcStep_replicate (c : ℚ) (hc : c ≠ 0) (m : ℕ) :
    List.zipWith pcStep (List.replicate (m + 1) (some c))
      (List.replicate m (some c)) = List.replicate m (some 0) := by
  induction m with
  | zero => rfl
  | succ k ih =>
    have step : pcStep (some c) (some c) = some 0 := by
      simp [pcStep, hc]
    calc List.zipWith pcStep (List.replicate (k + 2) (some c))
          (List.replicate (k + 1) (some c))
        = pcStep (some c) (some c) ::
            List.zipWith pcStep (List.replicate (k + 1) (some c))
              (List.replicate k (some c)) := rfl
      _ = List.replicate (k + 1) (some 0) := by rw [step, ih]; rfl

lemma filterMap_id_replicate_some (m : Nat) (q : ℚ) :
    (List.replicate m (some q)).filterMap id = List.replicate m q := by
  induction m with
  | zero => rfl
  | succ k ih => simp [List.replicate_succ, List.filterMap_cons, ih]

lemma returns_replicate (c : ℚ) (hc : c ≠ 0) (m : ℕ) :
    (calculate_returns (List.replicate (m + 1) c)).filterMap id =
      List.replicate m (0 : ℚ) := by
  have h1 : (List.replicate (m + 1) c).map some = List.replicate (m + 1) (some c) :=
    List.map_replicate
  have hf : ffill none (some c :: List.replicate m (some c)) =
      some c :: List.replicate m (some c) := by
    have : (some c :: List.replicate m (some c)) = (c :: List.replicate m c).map some := by
      simp
    rw [this, ffill_map_some]
  have h2 : pctChangeList (List.replicate (m + 1) (some c)) =
      none :: List.replicate m (some (0 : ℚ)) := by
    rw [List.replicate_succ]
    simp only [pctChangeList, hf]
    have hdrop : List.drop 1 (some c :: List.replicate m (some c)) =
        List.replicate m (some c) := rfl
    rw [hdrop]
    have : (some c :: List.replicate m (some c)) = List.replicate (m + 1) (some c) :=
      (List.replicate_succ (some c) m).symm
    rw [this, zipWith_pcStep_replicate c hc m]
  unfold calculate_returns
  rw [h1, h2]
  simp [seriesMul, filterMap_id_replicate_some]

lemma sampleVar_replicate_zero (m : ℕ) :
    sampleVar (List.replicate m (0 : ℚ)) = 0 := by
  simp [sampleVar, sampleMean, List.sum_replicate, List.map_replicate]

/-- C6: a return series with zero standard deviation gives Sharpe ratio 0
(the source's zero-volatility guard), a market return series with zero
variance gives beta 0, and for every constant (nonzero) price series the
annualized volatility is 0 and the Sharpe ratio is 0; all three functions
are total, so no division-by-zero exception can arise. -/
theorem c6_division_guards (risk_free_rate : ℚ) (periods : ℕ) :
    (∀ returns : List (Option ℚ), sampleVar (returns.filterMap id) = 0 →
        calculate_sharpe_ratio returns risk_free_rate periods = 0)
    ∧ (∀ asset market : List (Option ℚ), sampleVar (market.filterMap id) = 0 →
        calculate_beta asset market = 0)
    ∧ (∀ (c : ℚ) (n : ℕ), c ≠ 0 →
        calculate_volatility (calculate_returns (List.replicate n c)) 252 = 0
          ∧ calculate_sharpe_ratio (calculate_returns (List.replicate n c))
              risk_free_rate 252 = 0) := by
  have hsharpe : ∀ (returns : List (Option ℚ)) (per : ℕ),
      sampleVar (returns.filterMap id) = 0 →
      calculate_sharpe_ratio returns risk_free_rate per = 0 := by
    intro returns per h
    simp [calculate_sharpe_ratio, h]
  refine ⟨fun returns h => hsharpe returns periods h, ?_, ?_⟩
  · intro asset market h
    simp [calculate_beta, h]
  · intro c n hc
    have hvar : sampleVar ((calculate_returns (List.replicate n c)).filterMap id) = 0 := by
      rcases n with _ | m
      · simp [calculate_returns, pctChangeList, seriesMul, sampleVar, sampleMean]
      · rw [returns_replicate c hc m, sampleVar_replicate_zero]
    refine ⟨?_, hsharpe _ 252 hvar⟩
    simp [calculate_volatility, stdR, hvar]

lemma var_const_pair : sampleVar (([some 1, some 1] :
    List (Option ℚ)).filterMap id) = 0 := by
  norm_num [sampleVar, sampleMean, List.filterMap_cons]

/-- Witness for C6 at the concrete two-observation constant return
series. -/
theorem c6_division_guards_witness :
    sampleVar (([some 1, some 1] : List (Option ℚ)).filterMap id) = 0
    ∧ calculate_sharpe_ratio [some 1, some 1] (2 / 100) 252 = 0 :=
  ⟨var_const_pair,
    (c6_division_guards (2 / 100) 252).1 [some 1, some 1] var_const_pair⟩

/-- Helper for the spec-modelled merger: first price recorded under a
date, if any. -/
def lookupDate (d : Int) : List (Int × ℚ) → Option ℚ
  | [] => none
  | q :: qs => if q.1 = d then some q.2 else lookupDate d qs

/-- Modelled from the spec: the merger of section 4.2 ("inner join of two
PriceSeries on date ... only dates present in both series survive") has no
implementation under `src/` — the pages hand the fetched per-symbol frames
to `process_data` directly — so the join is taken from the spec's words:
keep the rows of the first series whose date also occurs in the second,
pairing the two prices. -/
def mergeSeries (a b : List (Int × ℚ)) : List (Int × ℚ × ℚ) :=
  a.filterMap (fun p => (lookupDate p.1 b).map (fun q => (p.1, p.2, q)))

/-- The synthetic series A of the scenario: prices 100..109. -/
def seriesA : List ℚ := [100, 101, 102, 103, 104, 105, 106, 107, 108, 109]

/-- The synthetic series B of the scenario: prices 200 down to 191. -/
def seriesB : List ℚ := [200, 199, 198, 197, 196, 195, 194, 193, 192, 191]

/-- Series A with its dates (ten consecutive days). -/
def datedA : List (Int × ℚ) :=
  List.zip [0, 1, 2, 3, 4, 5, 6, 7, 8, 9] seriesA

/-- Series B on the identical dates. -/
def datedB : List (Int × ℚ) :=
  List.zip [0, 1, 2, 3, 4, 5, 6, 7, 8, 9] seriesB

/-- The nine aligned daily-return pairs of the synthetic scenario. -/
def pairsAB : List (ℚ × ℚ) :=
  [(1/100, -1/200), (1/101, -1/199), (1/102, -1/198), (1/103, -1/197),
   (1/104, -1/196), (1/105, -1/195), (1/106, -1/194), (1/107, -1/193),
   (1/108, -1/192)]

lemma pairsAB_eval :
    pairSome (pctChangeList (seriesA.map some))
      (pctChangeList (seriesB.map some)) = pairsAB := by
  norm_num [pairSome, pctChangeList, ffill, pcStep, seriesA, seriesB,
    pairsAB, List.zip, List.filterMap_cons]

lemma corr_AB_pos : 0 < calculate_correlation seriesA seriesB := by
  have hcov : 0 < sampleCov pairsAB := by
    norm_num [sampleCov, sampleMean, pairsAB]
  have hvx : 0 < sampleVar (pairsAB.map Prod.fst) := by
    norm_num [sampleVar, sampleMean, pairsAB]
  have hvy : 0 < sampleVar (pairsAB.map Prod.snd) := by
    norm_num [sampleVar, sampleMean, pairsAB]
  simp only [calculate_correlation]
  rw [pairsAB_eval]
  apply div_pos
  · exact_mod_cast hcov
  · apply mul_pos
    · exact Real.sqrt_pos.2 (by exact_mod_cast hvx)
    · exact Real.sqrt_pos.2 (by exact_mod_cast hvy)

/-- C8 counterexample: the correlation `calculate_correlation` computes
between the two synthetic return series is not -1: it is strictly
positive (both return sequences decrease together: A's returns fall from
1/100 to 1/108 while B's fall from -1/200 to -1/192), because the prices
are inversely linear but the derived returns are not affinely related. -/
theorem c8_counterexample : calculate_correlation seriesA seriesB ≠ -1 := by
  have h := corr_AB_pos
  intro hEq
  rw [hEq] at h
  norm_num at h

/-- C8 amended: on the synthetic 10-row inputs the merged dataset has
exactly 10 rows and the simple daily return of A on day 2 is exactly
+1.0 percent, as claimed; the correlation between the two daily-return
series, however, is strictly positive (approximately +1), not -1. -/
theorem c8_synthetic_scenario :
    (mergeSeries datedA datedB).length = 10
    ∧ (calculate_returns seriesA)[1]? = some (some 1)
    ∧ 0 < calculate_correlation seriesA seriesB := by
  refine ⟨by decide, ?_, corr_AB_pos⟩
  norm_num [calculate_returns, pctChangeList, ffill, pcStep, seriesMul, seriesA]

/-! Efficient-frontier sampling loop of `06_portfolio_impact.py`
(claim C7).  The numpy global generator is abstracted as a function
`g : seed → draw index → weight pair`: after `np.random.seed(s)` the
i-th call of `np.random.random(2)` in the loop returns the pair
`g s i` — a faithful abstraction, since the seeded generator is a pure
function of the seed and the draw index. -/

/-- One stored portfolio sample: the columns `results[0..2, i]` of the
source, i.e. annualized standard deviation times 100, annualized return
times 100, and the Sharpe ratio. -/
structure Port where
  std : ℝ
  ret : ℝ
  sharpe : ℝ

/-- One iteration of the sampling loop: normalize the drawn weight pair,
then `p_return = sum(weights * mean_returns) * 252`,
`p_std = sqrt(weights . (cov_matrix * 252) . weights)`,
`p_sharpe = p_return / p_std` (the inputs are the per-day mean returns
`mr` and the symmetric covariance matrix `(c11, c12, c22)`). -/
noncomputable def mkPort (u : ℚ × ℚ) (mr : ℚ × ℚ) (cv : ℚ × ℚ × ℚ) : Port :=
  let s := u.1 + u.2
  let w1 := u.1 / s
  let w2 := u.2 / s
  let pret := (w1 * mr.1 + w2 * mr.2) * 252
  let pvar := (w1 * w1 * cv.1 + 2 * w1 * w2 * cv.2.1 + w2 * w2 * cv.2.2) * 252
  ⟨Real.sqrt ((pvar : ℚ) : ℝ) * 100, ((pret : ℚ) : ℝ) * 100,
    ((pret : ℚ) : ℝ) / Real.sqrt ((pvar : ℚ) : ℝ)⟩

/-- The seed the page hard-codes: `np.random.seed(42)`. -/
def frontierSeed : Nat := 42

/-- `n_portfolios = 5000`. -/
def n_portfolios : Nat := 5000

/-- The efficient-frontier sampling loop as written in the source: it
seeds the generator with the constant 42 and draws 5000 weight pairs;
no seed parameter exists in its interface. -/
noncomputable def efficientFrontier (g : Nat → Nat → ℚ × ℚ)
    (mr : ℚ × ℚ) (cv : ℚ × ℚ × ℚ) : List Port :=
  (List.range n_portfolios).map (fun i => mkPort (g frontierSeed i) mr cv)

/-- Modelled from the spec: "the efficient-frontier sampler ... must
accept an explicit seed for reproducibility" — the sampler with the seed
as a caller-supplied parameter, to be compared with the page's
`efficientFrontier`, which has no such parameter. -/
noncomputable def seededFrontier (g : Nat → Nat → ℚ × ℚ) (seed : Nat)
    (mr : ℚ × ℚ) (cv : ℚ × ℚ × ℚ) : List Port :=
  (List.range n_portfolios).map (fun i => mkPort (g seed i) mr cv)

/-- C7 amended: every metric function is deterministic (equal inputs give
equal outputs), and the efficient-frontier sampler is reproducible
because its seed is hard-coded: it coincides, for every generator and
input data, with the spec's seed-parameterized sampler applied to the
fixed seed 42 — but it accepts no seed parameter of its own. -/
theorem c7_determinism (rf : ℚ) (per : ℕ) :
    (∀ p q : List ℚ, p = q → calculate_returns p = calculate_returns q)
    ∧ (∀ p q : List ℚ, p = q →
        calculate_cumulative_returns p = calculate_cumulative_returns q)
    ∧ (∀ r s : List (Option ℚ), r = s →
        calculate_volatility r per = calculate_volatility s per)
    ∧ (∀ r s : List (Option ℚ), r = s →
        calculate_sharpe_ratio r rf per = calculate_sharpe_ratio s rf per)
    ∧ (∀ p q : List ℚ, p = q →
        calculate_max_drawdown p = calculate_max_drawdown q)
    ∧ (∀ a b c d : List ℚ, a = c → b = d →
        calculate_correlation a b = calculate_correlation c d)
    ∧ (∀ a b c d : List (Option ℚ), a = c → b = d →
        calculate_beta a b = calculate_beta c d)
    ∧ (∀ (g : Nat → Nat → ℚ × ℚ) (mr : ℚ × ℚ) (cv : ℚ × ℚ × ℚ),
        efficientFrontier g mr cv = seededFrontier g frontierSeed mr cv) :=
  ⟨fun _ _ h => h ▸ rfl, fun _ _ h => h ▸ rfl, fun _ _ h => h ▸ rfl,
   fun _ _ h => h ▸ rfl, fun _ _ h => h ▸ rfl,
   fun _ _ _ _ h1 h2 => h1 ▸ h2 ▸ rfl, fun _ _ _ _ h1 h2 => h1 ▸ h2 ▸ rfl,
   fun _ _ _ => rfl⟩

/-- Witness for C7 at concrete equal inputs. -/
theorem c7_determinism_witness :
    calculate_returns [100, 101] = calculate_returns [100, 101] :=
  (c7_determinism 0 252).1 [100, 101] [100, 101] rfl

/-- C7 counterexample: the page's sampler cannot reproduce the sampling
of any seed other than 42, because the seed is hard-coded rather than a
parameter: with a generator whose draws depend on the seed, the sampler's
output differs from the seed-parameterized sampler at seed 1. -/
theorem c7_counterexample :
    efficientFrontier (fun seed _ => ((seed : ℚ) + 1, 1)) (1, 0) (0, 0, 0)
      ≠ seededFrontier (fun seed _ => ((seed : ℚ) + 1, 1)) 1 (1, 0) (0, 0, 0) := by
  intro h
  have h0 := congrArg (fun l => l[0]?) h
  simp only [efficientFrontier, seededFrontier, List.getElem?_map,
    frontierSeed, n_portfolios] at h0
  rw [List.getElem?_range (by norm_num)] at h0
  simp only [Option.map_some'] at h0
  have h1 := congrArg Port.ret (Option.some.inj h0)
  simp only [mkPort] at h1
  have h2 : ((((42 : ℚ) + 1) / ((42 + 1) + 1) * 1 + 1 / ((42 + 1) + 1) * 0) * 252 : ℚ)
      = ((((1 : ℚ) + 1) / ((1 + 1) + 1) * 1 + 1 / ((1 + 1) + 1) * 0) * 252 : ℚ) := by
    have h3 := mul_right_cancel₀ (b := (100 : ℝ)) (by norm_num) h1
    exact_mod_cast h3
  norm_num at h2

end GoldSP
